import Mathlib

/-!
# libvirtplus-client: request pipeline and schema translation

A shallow embedding of `client.go` and `types.go`.

Conventions of the embedding.

* A Go function returning `(T, error)` becomes a function into `Result T`:
  `Result.ok v` is `return v, nil`, `Result.err e` is `return zero, e`, and
  `Result.panic msg` is a run-time panic (nil dereference, index out of range),
  which no function of the package recovers from.
* A Go pointer that may be nil is an `Option`.
* `int64` and `int` fields are `Int`: the package does no arithmetic on them.
* Go strings are `String`; the package only compares them and searches them.
* The remote daemon is a state `σ` threaded through `HTTPClient.Do`; the requests
  handed to the transport are recorded, oldest first, in `World.sent`.
* Functions of the Go standard library (`url.Parse`, `URL.String`, `http.NewRequest`,
  `url.Values.Encode`, `json.Marshal`, `json.Unmarshal`) are parameters collected in `Std`.
* `newHTTPClient` is a helper of the package that is not among the source files; it is a
  parameter of the constructor.
* Printing to standard output (`fmt.Println`) and closing response bodies are not modelled.
-/

set_option linter.dupNamespace false

namespace Libvirtplus

/-! ## Strings -/

/-- Whether the character list `s` begins with the character list `p`. -/
def startsWith : List Char → List Char → Bool
  | _, [] => true
  | [], _ :: _ => false
  | c :: cs, p :: ps => c == p && startsWith cs ps

/-- Position of the first occurrence of `sub` in `s`, counted from `n`, or `-1`. -/
def indexFrom (sub : List Char) : List Char → Nat → Int
  | [], n => if sub.isEmpty then (n : Int) else -1
  | c :: cs, n => if startsWith (c :: cs) sub then (n : Int) else indexFrom sub cs (n + 1)

/-- Go `strings.Index(s, substr)`: index of the first occurrence of `substr` in `s`, or `-1`.
(Positions are counted in characters; the package only compares the result with `-1`.) -/
def stringsIndex (s substr : String) : Int :=
  indexFrom substr.toList s.toList 0

/-- Go `strings.Contains(s, substr)`, defined in the library as `Index(s, substr) >= 0`. -/
def stringsContains (s substr : String) : Bool :=
  decide (0 ≤ stringsIndex s substr)

/-! ## Errors and results -/

/-- The `Error` struct of `client.go`. -/
structure Error where
  StatusCode : Int
  Status : String
  msg : String
  deriving DecidableEq, Repr

/-- Method `func (e Error) Error() string`: `fmt.Sprintf("%s: %s", e.Status, e.msg)`. -/
def Error.Error (e : Error) : String :=
  e.Status ++ ": " ++ e.msg

/-- The error values that flow through the package. -/
inductive GoError where
  /-- The package variable `ErrImageNotFound = errors.New("Image not found")`. -/
  | ErrImageNotFound
  /-- The package variable `ErrNotFound = errors.New("Not found")`. -/
  | ErrNotFound
  /-- A fresh value made by `errors.New` or `fmt.Errorf` inside the package. -/
  | errorsNew (text : String)
  /-- An `Error` struct value. -/
  | structured (e : Error)
  /-- An error value produced by the standard library (net, io, json, url). -/
  | foreign (text : String)
  deriving DecidableEq, Repr

/-- The text `err.Error()` of an error value. -/
def GoError.message : GoError → String
  | .ErrImageNotFound => "Image not found"
  | .ErrNotFound => "Not found"
  | .errorsNew t => t
  | .structured e => e.Error
  | .foreign t => t

/-- Outcome of a call of a Go function of type `func(...) (T, error)`. -/
inductive Result (α : Type) where
  | ok (val : α)
  | err (e : GoError)
  | panic (msg : String)
  deriving DecidableEq, Repr

/-- The run-time panic raised by dereferencing a nil pointer. -/
def nilDereference : String :=
  "runtime error: invalid memory address or nil pointer dereference"

/-- The run-time panic raised by indexing an empty slice at 0. -/
def indexOutOfRange : String :=
  "runtime error: index out of range [0] with length 0"

/-! ## Data model -/

/-- The fields of `dockerclient.HostConfig` that the package reads. -/
structure HostConfig where
  Memory : Int
  CpuQuota : Int
  NetworkMode : String
  deriving DecidableEq, Repr

/-- The fields of `dockerclient.ContainerConfig` that the package reads. -/
structure ContainerConfig where
  Cmd : List String
  Image : String
  HostConfig : HostConfig
  deriving DecidableEq, Repr

/-- The struct `dockerclient.State`, of which the package sets and reads `Running`. -/
structure State where
  Running : Bool
  deriving DecidableEq, Repr

/-- The fields of `dockerclient.ContainerInfo` that the package sets and reads.
`Config` and `State` are pointers. -/
structure ContainerInfo where
  Id : String
  Name : String
  Config : Option ContainerConfig
  State : Option State
  Image : String
  deriving DecidableEq, Repr

/-- The fields of `dockerclient.Container` that the package sets. -/
structure Container where
  Id : String
  Names : List String
  Image : String
  Status : String
  deriving DecidableEq, Repr

/-- The struct `VirtContainerConfig` of `types.go`. -/
structure VirtContainerConfig where
  Name : String
  Memory : Int
  Vcpu : Int
  Disk_source : String
  Cdrom_source : String
  Bridge : String
  Boot : String
  ContainerConfig : Option ContainerConfig
  deriving DecidableEq, Repr

/-- The struct `VirtCpuInfo` of `types.go`. -/
structure VirtCpuInfo where
  CpuTime : Int
  SysTime : Int
  UserTime : Int
  deriving DecidableEq, Repr

/-- The struct `VirtDomInfo` of `types.go`. -/
structure VirtDomInfo where
  Status : Int
  UsedMem : Int
  MaxMem : Int
  CpuTime : Int
  VirtCpu : Int
  deriving DecidableEq, Repr

/-- The struct `VirtContainerInfo` of `types.go`; the three last fields are pointers. -/
structure VirtContainerInfo where
  Id : String
  Name : String
  CpuInfo : Option VirtCpuInfo
  DomInfo : Option VirtDomInfo
  ContainerConfig : Option ContainerConfig
  deriving DecidableEq, Repr

/-! ## Transport -/

/-- The fields of `url.URL` that matter here. -/
structure URL where
  Scheme : String
  Host : String
  Path : String
  deriving DecidableEq, Repr

/-- A `tls.Config`; only its presence is inspected by the package. -/
structure TLSConfig where
  ServerName : String
  deriving DecidableEq, Repr

/-- An `http.Request` as built by `doStreamRequest`. -/
structure Request where
  Method : String
  URL : String
  Body : Option String
  Header : List (String × String)
  deriving DecidableEq, Repr

/-- A response body: what `ioutil.ReadAll` returns on it, the bytes read and the read error. -/
structure ReadCloser where
  data : String
  readErr : Option GoError
  deriving DecidableEq, Repr

/-- The fields of `http.Response` that the package reads. -/
structure Response where
  StatusCode : Int
  Status : String
  Body : ReadCloser
  deriving DecidableEq, Repr

/-- An `http.Client` talking to a daemon whose state has type `σ`. -/
structure HTTPClient (σ : Type) where
  Do : Request → σ → Except GoError Response × σ

/-- The daemon state and the requests dispatched so far, oldest first. -/
structure World (σ : Type) where
  net : σ
  sent : List Request

/-- The struct `LibvirtplusClient` of `client.go`. -/
structure LibvirtplusClient (σ : Type) where
  URL : URL
  HTTPClient : HTTPClient σ
  TLSConfig : Option TLSConfig
  monitorStats : Int
  eventStopChan : Option Unit

/-- The standard-library functions the package calls. -/
structure Std where
  /-- Function `url.Parse`. -/
  urlParse : String → Except GoError URL
  /-- Method `(*url.URL).String`. -/
  urlString : URL → String
  /-- The error, if any, with which `http.NewRequest(method, url, body)` rejects its arguments. -/
  newRequestError : String → String → Option GoError
  /-- Function `url.QueryEscape`, used by `url.Values.Encode`. -/
  queryEscape : String → String
  /-- The error, if any, of the well-formedness scan that opens `json.Unmarshal`. -/
  jsonCheckValid : String → Option GoError
  /-- Call `json.Unmarshal(data, &ids)` with `ids []string`. -/
  jsonUnmarshalIds : String → Except GoError (List String)
  /-- Call `json.Unmarshal(data, virtInfo)` with `virtInfo *VirtContainerInfo`. -/
  jsonUnmarshalInfo : String → Except GoError VirtContainerInfo
  /-- Call `json.Marshal(config)` with `config VirtContainerConfig`. -/
  jsonMarshalConfig : VirtContainerConfig → Except GoError String

/-- Call `json.Unmarshal(data, v)` where `v` is not a pointer: after the well-formedness scan
the decoder refuses the target with an `InvalidUnmarshalError`. The result is the returned
error (`none` for nil). -/
def Std.jsonUnmarshalNonPointer (std : Std) (data : String) (typeName : String) :
    Option GoError :=
  match std.jsonCheckValid data with
  | some e => some e
  | none => some (GoError.foreign ("json: Unmarshal(non-pointer " ++ typeName ++ ")"))

/-- The package variable `defaultTimeout = 30 * time.Second`, in nanoseconds. -/
def defaultTimeout : Int := 30 * 1000000000

/-! ## client.go -/

/-- Function `NewLibvirtplusClientTimeout` (client.go 47-61). -/
def NewLibvirtplusClientTimeout {σ : Type} (std : Std)
    (newHTTPClient : URL → Option TLSConfig → Int → HTTPClient σ)
    (daemonUrl : String) (tlsConfig : Option TLSConfig) (timeout : Int) :
    Result (LibvirtplusClient σ) :=
  match std.urlParse daemonUrl with
  | .error e => .err e
  | .ok u =>
    let u1 : URL :=
      if u.Scheme == "" || u.Scheme == "tcp" then
        (if tlsConfig.isNone then { u with Scheme := "http" } else { u with Scheme := "https" })
      else u
    let httpClient := newHTTPClient u1 tlsConfig timeout
    .ok { URL := u1, HTTPClient := httpClient, TLSConfig := tlsConfig,
          monitorStats := 0, eventStopChan := none }

/-- Function `NewLibvirtplusClient` (client.go 43-45). -/
def NewLibvirtplusClient {σ : Type} (std : Std)
    (newHTTPClient : URL → Option TLSConfig → Int → HTTPClient σ)
    (daemonUrl : String) (tlsConfig : Option TLSConfig) : Result (LibvirtplusClient σ) :=
  NewLibvirtplusClientTimeout std newHTTPClient daemonUrl tlsConfig defaultTimeout

/-- The request that `doStreamRequest` hands to the transport (client.go 80-92): an absent
body of a POST or PUT becomes an empty reader, the JSON content type is added first, then the
headers of the caller. -/
def doStreamRequest_request (std : Std) (u : URL) (method path : String)
    (inp : Option String) (headers : Option (List (String × String))) : Request :=
  let inp1 := if (method == "POST" || method == "PUT") && inp.isNone then some "" else inp
  { Method := method, URL := std.urlString u ++ path, Body := inp1,
    Header := [("Content-Type", "application/json")] ++ headers.getD [] }

/-- Method `doStreamRequest` (client.go 79-124). -/
def doStreamRequest {σ : Type} (std : Std) (client : LibvirtplusClient σ)
    (method path : String) (inp : Option String) (headers : Option (List (String × String)))
    (w : World σ) : Result ReadCloser × World σ :=
  match std.newRequestError method (std.urlString client.URL ++ path) with
  | some e => (.err e, w)
  | none =>
    let req := doStreamRequest_request std client.URL method path inp headers
    match client.HTTPClient.Do req w.net with
    | (.error e, n) =>
      let w1 : World σ := { net := n, sent := w.sent ++ [req] }
      if !stringsContains e.message "connection refused" && client.TLSConfig.isNone then
        (.err (.errorsNew (e.message ++
          ". Are you trying to connect to a TLS-enabled daemon without TLS?")), w1)
      else (.err e, w1)
    | (.ok resp, n) =>
      let w1 : World σ := { net := n, sent := w.sent ++ [req] }
      if resp.StatusCode == 404 then
        match resp.Body.readErr with
        | some _ => (.err .ErrNotFound, w1)
        | none =>
          let data := resp.Body.data
          if data.length > 0 then
            if stringsIndex data "No such image" != -1 then (.err .ErrImageNotFound, w1)
            else (.err (.errorsNew data), w1)
          else (.err .ErrNotFound, w1)
      else if resp.StatusCode ≥ 400 then
        match resp.Body.readErr with
        | some e => (.err e, w1)
        | none =>
          (.err (.structured { StatusCode := resp.StatusCode, Status := resp.Status,
                               msg := resp.Body.data }), w1)
      else (.ok resp.Body, w1)

/-- Method `doRequest` (client.go 63-77): `bytes.NewBuffer(body)` is never a nil reader. -/
def doRequest {σ : Type} (std : Std) (client : LibvirtplusClient σ)
    (method path : String) (body : Option String) (headers : Option (List (String × String)))
    (w : World σ) : Result String × World σ :=
  let b : Option String := some (body.getD "")
  match doStreamRequest std client method path b headers w with
  | (.err e, w1) => (.err e, w1)
  | (.panic m, w1) => (.panic m, w1)
  | (.ok reader, w1) =>
    match reader.readErr with
    | some e => (.err e, w1)
    | none => (.ok reader.data, w1)

/-- Method `InspectContainer` (client.go 163-189). `virtInfo.DomInfo` is a pointer and is
dereferenced without a nil check at line 183; `info.State` is only allocated when the domain
status is 1 and stays nil otherwise. -/
def InspectContainer {σ : Type} (std : Std) (client : LibvirtplusClient σ) (id : String)
    (w : World σ) : Result ContainerInfo × World σ :=
  let uri := "/containers/" ++ id
  match doRequest std client "GET" uri none none w with
  | (.err e, w1) => (.err e, w1)
  | (.panic m, w1) => (.panic m, w1)
  | (.ok data, w1) =>
    match std.jsonUnmarshalInfo data with
    | .error e => (.err e, w1)
    | .ok virtInfo =>
      let info : ContainerInfo :=
        { Id := virtInfo.Id, Name := virtInfo.Name, Config := virtInfo.ContainerConfig,
          State := none, Image := "" }
      let info1 : ContainerInfo :=
        match virtInfo.ContainerConfig with
        | some c => { info with Image := c.Image }
        | none => info
      match virtInfo.DomInfo with
      | none => (.panic nilDereference, w1)
      | some dom =>
        if dom.Status == 1 then (.ok { info1 with State := some { Running := true } }, w1)
        else (.ok info1, w1)

/-- The loop of `ListContainers` (client.go 142-159) over the remaining identifiers, with the
list `ret` built so far. `containerInfo.State` is a pointer and is dereferenced without a nil
check at line 153. -/
def ListContainers_loop {σ : Type} (std : Std) (client : LibvirtplusClient σ) :
    List String → List Container → World σ → Result (List Container) × World σ
  | [], ret, w => (.ok ret, w)
  | id :: ids, ret, w =>
    match InspectContainer std client id w with
    | (.panic m, w1) => (.panic m, w1)
    | (.err _, w1) => ListContainers_loop std client ids ret w1
    | (.ok containerInfo, w1) =>
      let container : Container :=
        { Id := containerInfo.Id, Names := [containerInfo.Name], Image := containerInfo.Image,
          Status := "" }
      match containerInfo.State with
      | none => (.panic nilDereference, w1)
      | some st =>
        let container1 : Container :=
          if st.Running == true then { container with Status := "Running" }
          else { container with Status := "Not Running" }
        ListContainers_loop std client ids (ret ++ [container1]) w1

/-- Method `ListContainers` (client.go 126-161). -/
def ListContainers {σ : Type} (std : Std) (client : LibvirtplusClient σ) (w : World σ) :
    Result (List Container) × World σ :=
  let uri := "/containers"
  match doRequest std client "GET" uri none none w with
  | (.err e, w1) => (.err e, w1)
  | (.panic m, w1) => (.panic m, w1)
  | (.ok data, w1) =>
    match std.jsonUnmarshalIds data with
    | .error e => (.err e, w1)
    | .ok ids => ListContainers_loop std client ids [] w1

/-- The payload that `CreateContainer` builds (client.go 192-206). The fields of the composite
literal are evaluated in order: `ccf.HostConfig` dereferences `ccf`, then `ccf.Cmd[0]` indexes
the command list. -/
def CreateContainer_config (ccf : Option ContainerConfig) (name : String) :
    Result VirtContainerConfig :=
  match ccf with
  | none => .panic nilDereference
  | some c =>
    match c.Cmd[0]? with
    | none => .panic indexOutOfRange
    | some cmd0 =>
      let config : VirtContainerConfig :=
        { Name := name, Memory := c.HostConfig.Memory, Vcpu := c.HostConfig.CpuQuota,
          Bridge := c.HostConfig.NetworkMode, Disk_source := "", Cdrom_source := "",
          Boot := cmd0, ContainerConfig := some c }
      if cmd0 == "hd" then .ok { config with Disk_source := c.Image }
      else if cmd0 == "cdrom" then .ok { config with Cdrom_source := c.Image }
      else .ok config

/-- The request path of `CreateContainer` (client.go 211-216); `url.Values.Encode` of the
single pair name=value is the key, an equals sign and the escaped value. -/
def CreateContainer_uri (std : Std) (name : String) : String :=
  if name != "" then "/containers" ++ "?" ++ ("name" ++ "=" ++ std.queryEscape name)
  else "/containers"

/-- Method `CreateContainer` (client.go 191-227). The identifier is decoded with
`json.Unmarshal(data, id)`, where `id` is a string value and not a pointer. -/
def CreateContainer {σ : Type} (std : Std) (client : LibvirtplusClient σ)
    (ccf : Option ContainerConfig) (name : String) (w : World σ) :
    Result String × World σ :=
  match CreateContainer_config ccf name with
  | .panic m => (.panic m, w)
  | .err e => (.err e, w)
  | .ok config =>
    match std.jsonMarshalConfig config with
    | .error e => (.err e, w)
    | .ok data =>
      let uri := CreateContainer_uri std name
      match doRequest std client "POST" uri (some data) none w with
      | (.err e, w1) => (.err e, w1)
      | (.panic m, w1) => (.panic m, w1)
      | (.ok data1, w1) =>
        let id := ""
        match std.jsonUnmarshalNonPointer data1 "string" with
        | some e => (.err e, w1)
        | none => (.ok id, w1)

/-- Method `RemoveContainer` (client.go 229-233). -/
def RemoveContainer {σ : Type} (std : Std) (client : LibvirtplusClient σ) (id : String)
    (w : World σ) : Result Unit × World σ :=
  let uri := "/containers/" ++ id
  match doRequest std client "DELETE" uri none none w with
  | (.err e, w1) => (.err e, w1)
  | (.panic m, w1) => (.panic m, w1)
  | (.ok _, w1) => (.ok (), w1)

/-! ## Reference definitions, following the specification -/

/-- The creation payload as the specification describes it, for a config whose first command
token is `first`: name, memory, vcpu and bridge copied, the boot mode is the first token, the
config is embedded, and the image reference goes to the disk source for "hd" and to the CD-ROM
source for "cdrom". -/
def referencePayload (ccf : ContainerConfig) (name : String) (first : String) :
    VirtContainerConfig :=
  { Name := name
    Memory := ccf.HostConfig.Memory
    Vcpu := ccf.HostConfig.CpuQuota
    Bridge := ccf.HostConfig.NetworkMode
    Boot := first
    ContainerConfig := some ccf
    Disk_source := if first = "hd" then ccf.Image else ""
    Cdrom_source := if first = "cdrom" then ccf.Image else "" }

/-- The specification's notion of a text containing a marker: the marker occurs as a
contiguous block of the text. -/
def Occurs (marker text : String) : Prop :=
  ∃ pre post : List Char, text.toList = pre ++ marker.toList ++ post

/-! ## A concrete daemon

A daemon at 192.168.11.51:2376 with three identifiers: `a` is a defined domain (running or
shut off), `b` is unknown to the daemon, `c` is a running domain. A further identifier `d` is
answered without a domain-status snapshot, and the inspection of `e` is answered with a missing
image. Every DELETE is answered with status 500 and a body that cannot be read. The tables below list, for the inputs used, what the
standard library returns on them. -/

/-- Inspect body of `a` when shut off. -/
def bodyA0 : String :=
  "\x7b\"Id\":\"a\",\"Name\":\"vm-a\",\"DomInfo\":\x7b\"status\":0\x7d\x7d"

/-- Inspect body of `a` when running. -/
def bodyA1 : String :=
  "\x7b\"Id\":\"a\",\"Name\":\"vm-a\",\"DomInfo\":\x7b\"status\":1\x7d\x7d"

/-- Inspect body of `c`, running, with an embedded config. -/
def bodyC : String :=
  "\x7b\"Id\":\"c\",\"Name\":\"vm-c\",\"DomInfo\":\x7b\"status\":1\x7d," ++
  "\"ContainerConfig\":\x7b\"Image\":\"/img/c.qcow2\"\x7d\x7d"

/-- Inspect body of `d`: no domain-status snapshot. -/
def bodyD : String :=
  "\x7b\"Id\":\"d\",\"Name\":\"vm-d\"\x7d"

/-- Body of the identifier list. -/
def bodyIds : String := "[\"a\",\"b\",\"c\"]"

/-- Body answering a creation: the JSON encoding of the identifier `192.168.11.51_14`. -/
def bodyCreated : String := "\"192.168.11.51_14\""

/-- A domain-status snapshot with the given status and zero counters. -/
def domWithStatus (st : Int) : VirtDomInfo :=
  { Status := st, UsedMem := 0, MaxMem := 0, CpuTime := 0, VirtCpu := 0 }

/-- The standard library on the inputs of the concrete daemon. The encoder output is
abbreviated to its first member: the daemon below does not look at request bodies. -/
def demoStd : Std where
  urlParse := fun s =>
    if s == "//192.168.11.51:2376" then .ok { Scheme := "", Host := "192.168.11.51:2376", Path := "" }
    else .error (.foreign "parse error")
  urlString := fun u => u.Scheme ++ "://" ++ u.Host ++ u.Path
  newRequestError := fun _ _ => none
  queryEscape := fun s => s
  jsonCheckValid := fun s =>
    if s == bodyCreated then none else some (.foreign "invalid character")
  jsonUnmarshalIds := fun s =>
    if s == bodyIds then .ok ["a", "b", "c"] else .error (.foreign "invalid character")
  jsonUnmarshalInfo := fun s =>
    if s == bodyA0 then
      .ok { Id := "a", Name := "vm-a", CpuInfo := none, DomInfo := some (domWithStatus 0),
            ContainerConfig := none }
    else if s == bodyA1 then
      .ok { Id := "a", Name := "vm-a", CpuInfo := none, DomInfo := some (domWithStatus 1),
            ContainerConfig := none }
    else if s == bodyC then
      .ok { Id := "c", Name := "vm-c", CpuInfo := none, DomInfo := some (domWithStatus 1),
            ContainerConfig :=
              some { Cmd := [], Image := "/img/c.qcow2",
                     HostConfig := { Memory := 0, CpuQuota := 0, NetworkMode := "" } } }
    else if s == bodyD then
      .ok { Id := "d", Name := "vm-d", CpuInfo := none, DomInfo := none,
            ContainerConfig := none }
    else .error (.foreign "invalid character")
  jsonMarshalConfig := fun c => .ok ("\x7b\"name\":\"" ++ c.Name ++ "\",...\x7d")

/-- A readable body. -/
def readable (text : String) : ReadCloser :=
  { data := text, readErr := none }

/-- The transport of the concrete daemon; `aRunning` tells whether domain `a` runs. -/
def demoDo (aRunning : Bool) (req : Request) (n : Unit) : Except GoError Response × Unit :=
  let base := "http://192.168.11.51:2376"
  if req.Method == "GET" && req.URL == base ++ "/containers" then
    (.ok { StatusCode := 200, Status := "200 OK", Body := readable bodyIds }, n)
  else if req.Method == "GET" && req.URL == base ++ "/containers/a" then
    (.ok { StatusCode := 200, Status := "200 OK",
           Body := readable (if aRunning then bodyA1 else bodyA0) }, n)
  else if req.Method == "GET" && req.URL == base ++ "/containers/c" then
    (.ok { StatusCode := 200, Status := "200 OK", Body := readable bodyC }, n)
  else if req.Method == "GET" && req.URL == base ++ "/containers/d" then
    (.ok { StatusCode := 200, Status := "200 OK", Body := readable bodyD }, n)
  else if req.Method == "GET" && req.URL == base ++ "/containers/e" then
    (.ok { StatusCode := 404, Status := "404 Not Found",
           Body := readable "No such image: centos" }, n)
  else if req.Method == "POST" && req.URL == base ++ "/containers?name=centos_65_3" then
    (.ok { StatusCode := 200, Status := "200 OK", Body := readable bodyCreated }, n)
  else if req.Method == "DELETE" then
    (.ok { StatusCode := 500, Status := "500 Internal Server Error",
           Body := { data := "", readErr := some (.foreign "unexpected EOF") } }, n)
  else
    (.ok { StatusCode := 404, Status := "404 Not Found", Body := readable "" }, n)

/-- The client of the concrete daemon, without TLS. -/
def demoClient (aRunning : Bool) : LibvirtplusClient Unit :=
  { URL := { Scheme := "http", Host := "192.168.11.51:2376", Path := "" }
    HTTPClient := { Do := demoDo aRunning }
    TLSConfig := none
    monitorStats := 0
    eventStopChan := none }

/-- A transport factory for the concrete daemon. -/
def demoNewHTTPClient (_u : URL) (_tls : Option TLSConfig) (_timeout : Int) : HTTPClient Unit :=
  { Do := demoDo false }

/-- A config asking for a network boot, with an image reference. -/
def netbootConfig : ContainerConfig :=
  { Cmd := ["network"], Image := "/var/lib/libvirt/images/centos_65.qcow2",
    HostConfig := { CpuQuota := 4, NetworkMode := "virbr0", Memory := 1048576 } }

/-- A config asking for a CD-ROM boot. -/
def cdromConfig : ContainerConfig :=
  { Cmd := ["cdrom", "install"], Image := "/iso/centos_65.iso",
    HostConfig := { CpuQuota := 2, NetworkMode := "virbr0", Memory := 524288 } }

/-- The config of `TestCreate` in tests/clienttest.go. -/
def testCreateConfig : ContainerConfig :=
  { Cmd := ["hd"], Image := "/var/lib/libvirt/images/centos_65.qcow2",
    HostConfig := { CpuQuota := 4, NetworkMode := "virbr0", Memory := 1048576 } }

/-- The initial world: nothing sent yet. -/
def world0 : World Unit := { net := (), sent := [] }

/-! ## Substring search -/

theorem startsWith_iff (s p : List Char) : startsWith s p = true ↔ ∃ post, s = p ++ post := by
  induction p generalizing s with
  | nil => simp [startsWith]
  | cons a p ih =>
    cases s with
    | nil => simp [startsWith]
    | cons c cs =>
      simp only [startsWith, Bool.and_eq_true, beq_iff_eq, ih, List.cons_append, List.cons.injEq]
      constructor
      · rintro ⟨h, post, hp⟩
        exact ⟨post, h, hp⟩
      · rintro ⟨post, h, hp⟩
        exact ⟨h, post, hp⟩

theorem indexFrom_ne_neg_one_iff (sub s : List Char) (n : Nat) :
    indexFrom sub s n ≠ -1 ↔ ∃ pre post, s = pre ++ sub ++ post := by
  induction s generalizing n with
  | nil =>
    cases sub with
    | nil => simp [indexFrom]
    | cons a sub => simp [indexFrom]
  | cons c cs ih =>
    unfold indexFrom
    by_cases hs : startsWith (c :: cs) sub = true
    · rw [if_pos hs]
      obtain ⟨post, hp⟩ := (startsWith_iff _ _).1 hs
      constructor
      · intro _
        exact ⟨[], post, by simpa using hp⟩
      · intro _
        omega
    · rw [if_neg hs, ih]
      constructor
      · rintro ⟨pre, post, h⟩
        exact ⟨c :: pre, post, by simp [h]⟩
      · rintro ⟨pre, post, h⟩
        cases pre with
        | nil =>
          exact absurd ((startsWith_iff _ _).2 ⟨post, by simpa using h⟩) hs
        | cons a pre =>
          simp only [List.cons_append, List.cons.injEq] at h
          exact ⟨pre, post, by simpa using h.2⟩

/-- The search of `strings.Index` finds the marker exactly when the marker occurs in the
text. -/
theorem stringsIndex_ne_neg_one_iff (s marker : String) :
    stringsIndex s marker ≠ -1 ↔ Occurs marker s := by
  unfold stringsIndex Occurs
  exact indexFrom_ne_neg_one_iff _ _ 0

theorem length_pos_iff_ne_empty (s : String) : s.length > 0 ↔ s ≠ "" := by
  rw [gt_iff_lt, String.length, List.length_pos, ne_eq, ne_eq, String.ext_iff]

/-! ## Status-code classification in `doStreamRequest` -/

/-- What `doStreamRequest` returns once the request was accepted by `http.NewRequest` and the
transport produced the response `resp`: the classification of client.go 100-123. -/
theorem doStreamRequest_of_response {σ : Type} (std : Std) (client : LibvirtplusClient σ)
    (method path : String) (inp : Option String) (headers : Option (List (String × String)))
    (w : World σ) (resp : Response) (n : σ)
    (hreq : std.newRequestError method (std.urlString client.URL ++ path) = none)
    (hdo : client.HTTPClient.Do
        (doStreamRequest_request std client.URL method path inp headers) w.net = (.ok resp, n)) :
    (doStreamRequest std client method path inp headers w).1 =
      if resp.StatusCode = 404 then
        match resp.Body.readErr with
        | some _ => .err .ErrNotFound
        | none =>
          if resp.Body.data ≠ "" then
            if stringsIndex resp.Body.data "No such image" ≠ -1 then .err .ErrImageNotFound
            else .err (.errorsNew resp.Body.data)
          else .err .ErrNotFound
      else if 400 ≤ resp.StatusCode then
        match resp.Body.readErr with
        | some e => .err e
        | none => .err (.structured { StatusCode := resp.StatusCode, Status := resp.Status,
                                      msg := resp.Body.data })
      else .ok resp.Body := by
  unfold doStreamRequest
  simp only [hreq, hdo]
  by_cases h404 : resp.StatusCode = 404
  · simp only [h404, beq_self_eq_true, if_true]
    cases hr : resp.Body.readErr with
    | some e => rfl
    | none =>
      by_cases hd : resp.Body.data = ""
      · simp [hd]
      · have hl : resp.Body.data.length > 0 := (length_pos_iff_ne_empty _).2 hd
        by_cases hm : stringsIndex resp.Body.data "No such image" = -1
        · simp [hd, hl, hm]
        · simp [hd, hl, hm]
  · have hb : (resp.StatusCode == 404) = false := by simpa using h404
    simp only [hb, if_neg h404]
    by_cases h400 : 400 ≤ resp.StatusCode
    · cases hr : resp.Body.readErr with
      | some e => simp [h400]
      | none => simp [h400]
    · simp [h400]

/-- C6. A response with status 404 gives no stream and an error decided by the body alone:
`ErrNotFound` when the body is unreadable or empty; `ErrImageNotFound`, and not `ErrNotFound`,
when the body text contains the marker "No such image"; an error made of the raw body text for
every other non-empty body; and never the structured `Error`. -/
theorem doStreamRequest_status_404 {σ : Type} (std : Std) (client : LibvirtplusClient σ)
    (method path : String) (inp : Option String) (headers : Option (List (String × String)))
    (w : World σ) (resp : Response) (n : σ)
    (hreq : std.newRequestError method (std.urlString client.URL ++ path) = none)
    (hdo : client.HTTPClient.Do
        (doStreamRequest_request std client.URL method path inp headers) w.net = (.ok resp, n))
    (h404 : resp.StatusCode = 404) :
    ((resp.Body.readErr ≠ none ∨ resp.Body.data = "") →
        (doStreamRequest std client method path inp headers w).1 = .err .ErrNotFound) ∧
    (resp.Body.readErr = none → Occurs "No such image" resp.Body.data →
        (doStreamRequest std client method path inp headers w).1 = .err .ErrImageNotFound ∧
        (doStreamRequest std client method path inp headers w).1 ≠ .err .ErrNotFound) ∧
    (resp.Body.readErr = none → resp.Body.data ≠ "" → ¬ Occurs "No such image" resp.Body.data →
        (doStreamRequest std client method path inp headers w).1 =
          .err (.errorsNew resp.Body.data)) ∧
    (∀ e : Error, (doStreamRequest std client method path inp headers w).1 ≠
        .err (.structured e)) ∧
    (∀ stream : ReadCloser, (doStreamRequest std client method path inp headers w).1 ≠
        .ok stream) := by
  have key := doStreamRequest_of_response std client method path inp headers w resp n hreq hdo
  rw [if_pos h404] at key
  have hocc : ∀ text : String, Occurs "No such image" text → text ≠ "" := by
    rintro text ⟨pre, post, h⟩ rfl
    have := congrArg List.length h
    simp at this
    omega
  refine ⟨?_, ?_, ?_, ?_, ?_⟩
  · rintro (hr | hd)
    · cases hb : resp.Body.readErr with
      | none => exact absurd hb hr
      | some e => rw [key, hb]
    · cases hb : resp.Body.readErr with
      | none => rw [key, hb]; simp [hd]
      | some e => rw [key, hb]
  · intro hr ho
    have hne := hocc _ ho
    have hi := (stringsIndex_ne_neg_one_iff _ _).2 ho
    rw [key, hr]
    simp [hne, hi]
  · intro hr hne ho
    have hi : stringsIndex resp.Body.data "No such image" = -1 := by
      by_contra hc
      exact ho ((stringsIndex_ne_neg_one_iff _ _).1 hc)
    rw [key, hr]
    simp [hne, hi]
  · intro e
    rw [key]
    cases resp.Body.readErr with
    | some e1 => simp
    | none =>
      by_cases hd : resp.Body.data = ""
      · simp [hd]
      · by_cases hm : stringsIndex resp.Body.data "No such image" = -1
        · simp [hd, hm]
        · simp [hd, hm]
  · intro stream
    rw [key]
    cases resp.Body.readErr with
    | some e1 => simp
    | none =>
      by_cases hd : resp.Body.data = ""
      · simp [hd]
      · by_cases hm : stringsIndex resp.Body.data "No such image" = -1
        · simp [hd, hm]
        · simp [hd, hm]

/-- Witness of C6 on the concrete daemon: a 404 whose body holds the marker. -/
theorem doStreamRequest_status_404_witness :
    (doStreamRequest demoStd (demoClient false) "GET" "/containers/e" (some "") none world0).1
      = .err .ErrImageNotFound :=
  ((doStreamRequest_status_404 demoStd (demoClient false) "GET" "/containers/e" (some "") none
      world0 { StatusCode := 404, Status := "404 Not Found",
               Body := readable "No such image: centos" } ()
      (by rfl) (by rfl) (by rfl)).2.1 (by rfl) ⟨[], ": centos".toList, by rfl⟩).1

/-- C5, refuted as stated: the concrete daemon answers a DELETE with status 500 and a body
whose read fails; `doStreamRequest` returns the read error, not a structured `Error`. -/
theorem doStreamRequest_status_500_unreadable :
    (demoDo false (doStreamRequest_request demoStd (demoClient false).URL "DELETE"
        "/containers/x" (some "") none) ()).1
      = .ok { StatusCode := 500, Status := "500 Internal Server Error",
              Body := { data := "", readErr := some (.foreign "unexpected EOF") } } ∧
    (doStreamRequest demoStd (demoClient false) "DELETE" "/containers/x" (some "") none
        world0).1 = .err (.foreign "unexpected EOF") ∧
    (doStreamRequest demoStd (demoClient false) "DELETE" "/containers/x" (some "") none
        world0).1 ≠ .err (.structured { StatusCode := 500,
                                        Status := "500 Internal Server Error", msg := "" }) := by
  refine ⟨rfl, by decide, by decide⟩

/-- C5, amended. A response with status at least 400 and not 404 gives no stream; when its
body is read without error the result is the structured `Error` carrying the status code, the
status line and exactly the body text; when reading the body fails the result is the read
error. -/
theorem doStreamRequest_status_ge_400 {σ : Type} (std : Std) (client : LibvirtplusClient σ)
    (method path : String) (inp : Option String) (headers : Option (List (String × String)))
    (w : World σ) (resp : Response) (n : σ)
    (hreq : std.newRequestError method (std.urlString client.URL ++ path) = none)
    (hdo : client.HTTPClient.Do
        (doStreamRequest_request std client.URL method path inp headers) w.net = (.ok resp, n))
    (h400 : 400 ≤ resp.StatusCode) (h404 : resp.StatusCode ≠ 404) :
    (resp.Body.readErr = none →
        (doStreamRequest std client method path inp headers w).1 =
          .err (.structured { StatusCode := resp.StatusCode, Status := resp.Status,
                              msg := resp.Body.data })) ∧
    (∀ e : GoError, resp.Body.readErr = some e →
        (doStreamRequest std client method path inp headers w).1 = .err e) ∧
    (∀ stream : ReadCloser, (doStreamRequest std client method path inp headers w).1 ≠
        .ok stream) := by
  have key := doStreamRequest_of_response std client method path inp headers w resp n hreq hdo
  rw [if_neg h404, if_pos h400] at key
  refine ⟨?_, ?_, ?_⟩
  · intro hr
    rw [key, hr]
  · intro e hr
    rw [key, hr]
  · intro stream
    rw [key]
    cases resp.Body.readErr with
    | some e1 => simp
    | none => simp

/-- Witness of the amended C5 on a daemon answering 503 with a readable body. -/
theorem doStreamRequest_status_ge_400_witness :
    (doStreamRequest demoStd
        { demoClient false with
          HTTPClient := { Do := fun _ n =>
            (.ok { StatusCode := 503, Status := "503 Service Unavailable",
                   Body := readable "libvirt is down" }, n) } }
        "GET" "/containers" (some "") none world0).1
      = .err (.structured { StatusCode := 503, Status := "503 Service Unavailable",
                            msg := "libvirt is down" }) :=
  (doStreamRequest_status_ge_400 demoStd
      { demoClient false with
        HTTPClient := { Do := fun _ n =>
          (.ok { StatusCode := 503, Status := "503 Service Unavailable",
                 Body := readable "libvirt is down" }, n) } }
      "GET" "/containers" (some "") none world0
      { StatusCode := 503, Status := "503 Service Unavailable",
        Body := readable "libvirt is down" } ()
      (by rfl) (by rfl) (by decide) (by decide)).1 (by rfl)

/-! ## Construction -/

/-- C7. When the daemon address parses with an empty scheme, construction returns a client
whose URL scheme is "http" without a TLS configuration and "https" with one; construction
returns an error exactly when the address fails to parse, and then that parse error. -/
theorem NewLibvirtplusClientTimeout_scheme {σ : Type} (std : Std)
    (newHTTPClient : URL → Option TLSConfig → Int → HTTPClient σ)
    (daemonUrl : String) (tlsConfig : Option TLSConfig) (timeout : Int) :
    (∀ u : URL, std.urlParse daemonUrl = .ok u → u.Scheme = "" →
      ∃ c : LibvirtplusClient σ,
        NewLibvirtplusClientTimeout std newHTTPClient daemonUrl tlsConfig timeout = .ok c ∧
        (tlsConfig = none → c.URL.Scheme = "http") ∧
        (tlsConfig ≠ none → c.URL.Scheme = "https") ∧
        c.URL.Host = u.Host ∧ c.URL.Path = u.Path ∧ c.TLSConfig = tlsConfig) ∧
    (∀ e : GoError,
      NewLibvirtplusClientTimeout std newHTTPClient daemonUrl tlsConfig timeout = .err e ↔
        std.urlParse daemonUrl = .error e) ∧
    (∀ m : String,
      NewLibvirtplusClientTimeout std newHTTPClient daemonUrl tlsConfig timeout ≠ .panic m) := by
  refine ⟨?_, ?_, ?_⟩
  · intro u hu hs
    cases tlsConfig with
    | none =>
      refine ⟨_, by simp only [NewLibvirtplusClientTimeout, hu]; rfl, ?_⟩
      simp [hs]
    | some cfg =>
      refine ⟨_, by simp only [NewLibvirtplusClientTimeout, hu]; rfl, ?_⟩
      simp [hs]
  · intro e
    unfold NewLibvirtplusClientTimeout
    cases hp : std.urlParse daemonUrl with
    | error e1 => simp
    | ok u => simp
  · intro m
    unfold NewLibvirtplusClientTimeout
    cases hp : std.urlParse daemonUrl with
    | error e1 => simp
    | ok u => simp

/-- Witness of C7: the address of the concrete daemon, with a TLS configuration. -/
theorem NewLibvirtplusClientTimeout_scheme_witness :
    ∃ c : LibvirtplusClient Unit,
      NewLibvirtplusClientTimeout demoStd demoNewHTTPClient "//192.168.11.51:2376"
        (some { ServerName := "daemon" }) defaultTimeout = .ok c ∧
      c.URL.Scheme = "https" := by
  obtain ⟨c, hc, _, hs, _⟩ :=
    (NewLibvirtplusClientTimeout_scheme demoStd demoNewHTTPClient "//192.168.11.51:2376"
      (some { ServerName := "daemon" }) defaultTimeout).1
      { Scheme := "", Host := "192.168.11.51:2376", Path := "" } (by rfl) (by rfl)
  exact ⟨c, hc, hs (by simp)⟩

/-! ## The creation payload -/

theorem doStreamRequest_sent {σ : Type} (std : Std) (client : LibvirtplusClient σ)
    (method path : String) (inp : Option String) (headers : Option (List (String × String)))
    (w : World σ)
    (hreq : std.newRequestError method (std.urlString client.URL ++ path) = none) :
    (doStreamRequest std client method path inp headers w).2.sent =
      w.sent ++ [doStreamRequest_request std client.URL method path inp headers] := by
  unfold doStreamRequest
  simp only [hreq]
  rcases hdo : client.HTTPClient.Do
      (doStreamRequest_request std client.URL method path inp headers) w.net with ⟨r, n⟩
  cases r with
  | error e =>
    simp only
    split <;> rfl
  | ok resp =>
    simp only
    split
    · split
      · rfl
      · split
        · split <;> rfl
        · rfl
    · split
      · split <;> rfl
      · rfl

theorem doRequest_snd {σ : Type} (std : Std) (client : LibvirtplusClient σ)
    (method path : String) (body : Option String) (headers : Option (List (String × String)))
    (w : World σ) :
    (doRequest std client method path body headers w).2 =
      (doStreamRequest std client method path (some (body.getD "")) headers w).2 := by
  simp only [doRequest]
  generalize doStreamRequest std client method path (some (body.getD "")) headers w = x
  rcases x with ⟨r, w1⟩
  cases r with
  | err e => rfl
  | panic m => rfl
  | ok reader =>
    rcases reader with ⟨d, re⟩
    cases re <;> rfl

theorem CreateContainer_config_of_cons (ccf : ContainerConfig) (name first : String)
    (rest : List String) (hcmd : ccf.Cmd = first :: rest) :
    CreateContainer_config (some ccf) name = .ok (referencePayload ccf name first) := by
  unfold CreateContainer_config referencePayload
  simp only [hcmd, List.getElem?_cons_zero]
  by_cases hhd : first = "hd"
  · subst hhd
    simp
  · by_cases hcd : first = "cdrom"
    · subst hcd
      simp
    · simp [hhd, hcd]

/-- C8. For a config with a non-empty command list, the payload that `CreateContainer` builds
is the reference mapping on the first command token, and that payload is what the call hands
to `json.Marshal`: a marshalling error is returned as it is, and on success the encoded bytes
are the body of the one POST request that is dispatched. -/
theorem CreateContainer_payload_eq_reference {σ : Type} (std : Std)
    (client : LibvirtplusClient σ) (ccf : ContainerConfig) (name : String) (w : World σ)
    (hcmd : ccf.Cmd ≠ []) :
    CreateContainer_config (some ccf) name =
      .ok (referencePayload ccf name (ccf.Cmd.head hcmd)) ∧
    (∀ e : GoError,
      std.jsonMarshalConfig (referencePayload ccf name (ccf.Cmd.head hcmd)) = .error e →
      CreateContainer std client (some ccf) name w = (.err e, w)) ∧
    (∀ data : String,
      std.jsonMarshalConfig (referencePayload ccf name (ccf.Cmd.head hcmd)) = .ok data →
      std.newRequestError "POST" (std.urlString client.URL ++ CreateContainer_uri std name)
        = none →
      (CreateContainer std client (some ccf) name w).2.sent =
        w.sent ++ [{ Method := "POST"
                     URL := std.urlString client.URL ++ CreateContainer_uri std name
                     Body := some data
                     Header := [("Content-Type", "application/json")] }]) := by
  obtain ⟨first, rest, hfr⟩ : ∃ first rest, ccf.Cmd = first :: rest := by
    cases hc : ccf.Cmd with
    | nil => exact absurd hc hcmd
    | cons a l => exact ⟨a, l, rfl⟩
  have hhead : ccf.Cmd.head hcmd = first := by simp [hfr]
  have hcfg := CreateContainer_config_of_cons ccf name first rest hfr
  rw [hhead]
  refine ⟨hcfg, ?_, ?_⟩
  · intro e he
    simp only [CreateContainer, hcfg, he]
  · intro data hd hreq
    have h1 : (CreateContainer std client (some ccf) name w).2 =
        (doRequest std client "POST" (CreateContainer_uri std name) (some data) none w).2 := by
      simp only [CreateContainer, hcfg, hd]
      generalize doRequest std client "POST" (CreateContainer_uri std name) (some data) none w
        = x
      rcases x with ⟨r, w1⟩
      cases r with
      | err e => rfl
      | panic m => rfl
      | ok d1 =>
        simp only
        split <;> rfl
    rw [h1, doRequest_snd, doStreamRequest_sent _ _ _ _ _ _ _ hreq]
    rfl

/-- Witness of C8: a CD-ROM boot; the image reference is the CD-ROM source and the disk
source is empty. -/
theorem CreateContainer_payload_eq_reference_witness :
    CreateContainer_config (some cdromConfig) "installer" =
      .ok { Name := "installer", Memory := 524288, Vcpu := 2, Disk_source := "",
            Cdrom_source := "/iso/centos_65.iso", Bridge := "virbr0", Boot := "cdrom",
            ContainerConfig := some cdromConfig } :=
  (CreateContainer_payload_eq_reference demoStd (demoClient false) cdromConfig "installer"
    world0 (by decide)).1

/-- C9, refuted as stated: a config whose first command token is "network" gives a payload in
which both the disk source and the CD-ROM source are empty. -/
theorem CreateContainer_config_netboot :
    CreateContainer_config (some netbootConfig) "pxe" =
      .ok { Name := "pxe", Memory := 1048576, Vcpu := 4, Disk_source := "",
            Cdrom_source := "", Bridge := "virbr0", Boot := "network",
            ContainerConfig := some netbootConfig } := by
  decide

/-- C9, amended. In every payload that `CreateContainer` builds at most one of the disk source
and the CD-ROM source is populated, and the boot-mode tag decides which: the disk source is
populated exactly when the tag is "hd" and the image reference is non-empty, the CD-ROM source
exactly when the tag is "cdrom" and the image reference is non-empty. -/
theorem CreateContainer_config_sources (ccf : ContainerConfig) (name : String)
    (p : VirtContainerConfig) (hp : CreateContainer_config (some ccf) name = .ok p) :
    (p.Disk_source ≠ "" ↔ (p.Boot = "hd" ∧ ccf.Image ≠ "")) ∧
    (p.Cdrom_source ≠ "" ↔ (p.Boot = "cdrom" ∧ ccf.Image ≠ "")) ∧
    ¬ (p.Disk_source ≠ "" ∧ p.Cdrom_source ≠ "") := by
  cases hc : ccf.Cmd with
  | nil =>
    simp [CreateContainer_config, hc] at hp
  | cons first rest =>
    rw [CreateContainer_config_of_cons ccf name first rest hc] at hp
    injection hp with hp
    subst hp
    unfold referencePayload
    by_cases hhd : first = "hd"
    · subst hhd
      simp
    · by_cases hcd : first = "cdrom"
      · subst hcd
        simp
      · simp [hhd, hcd]

/-- Witness of the amended C9: the config of `TestCreate`. -/
theorem CreateContainer_config_sources_witness :
    ("/var/lib/libvirt/images/centos_65.qcow2" ≠ "" ↔
      ("hd" = "hd" ∧ testCreateConfig.Image ≠ "")) ∧
    ("" ≠ "" ↔ ("hd" = "cdrom" ∧ testCreateConfig.Image ≠ "")) ∧
    ¬ ("/var/lib/libvirt/images/centos_65.qcow2" ≠ "" ∧ "" ≠ "") :=
  CreateContainer_config_sources testCreateConfig "centos_65_3"
    { Name := "centos_65_3", Memory := 1048576, Vcpu := 4,
      Disk_source := "/var/lib/libvirt/images/centos_65.qcow2", Cdrom_source := "",
      Bridge := "virbr0", Boot := "hd", ContainerConfig := some testCreateConfig }
    (by decide)

/-- C10. The first command token is read while the payload is built, before anything else is
checked: with a non-empty command list the access is in bounds and the payload is built with
that token as boot mode; with an empty command list the access is out of bounds and the call
panics, so that no error value is returned and the world is as before, no request sent. -/
theorem CreateContainer_first_token {σ : Type} (std : Std) (client : LibvirtplusClient σ)
    (ccf : ContainerConfig) (name : String) (w : World σ) :
    (ccf.Cmd ≠ [] →
      ∃ (cmd0 : String) (p : VirtContainerConfig),
        ccf.Cmd[0]? = some cmd0 ∧ CreateContainer_config (some ccf) name = .ok p ∧
        p.Boot = cmd0) ∧
    (ccf.Cmd = [] →
      ccf.Cmd[0]? = none ∧
      CreateContainer_config (some ccf) name = .panic indexOutOfRange ∧
      CreateContainer std client (some ccf) name w = (.panic indexOutOfRange, w) ∧
      (CreateContainer std client (some ccf) name w).2.sent = w.sent) := by
  constructor
  · intro hne
    cases hc : ccf.Cmd with
    | nil => exact absurd hc hne
    | cons first rest =>
      exact ⟨first, _, by simp, CreateContainer_config_of_cons ccf name first rest hc, rfl⟩
  · intro he
    have hcfg : CreateContainer_config (some ccf) name = .panic indexOutOfRange := by
      simp [CreateContainer_config, he]
    refine ⟨by simp [he], hcfg, ?_, ?_⟩
    · simp only [CreateContainer, hcfg]
    · simp only [CreateContainer, hcfg]

/-- Witness of C10: a config without a command. -/
theorem CreateContainer_first_token_witness :
    (CreateContainer demoStd (demoClient false)
        (some { testCreateConfig with Cmd := [] }) "centos_65_3" world0).1
      = .panic indexOutOfRange ∧
    (CreateContainer demoStd (demoClient false)
        (some { testCreateConfig with Cmd := [] }) "centos_65_3" world0).2.sent = [] := by
  obtain ⟨_, _, h, hs⟩ :=
    (CreateContainer_first_token demoStd (demoClient false)
      { testCreateConfig with Cmd := [] } "centos_65_3" world0).2 (by rfl)
  exact ⟨by rw [h], hs⟩

/-! ## Decoding the created identifier -/

/-- Decoding into a value that is not a pointer fails on every input. -/
theorem jsonUnmarshalNonPointer_ne_none (std : Std) (data typeName : String) :
    std.jsonUnmarshalNonPointer data typeName ≠ none := by
  unfold Std.jsonUnmarshalNonPointer
  cases std.jsonCheckValid data <;> simp

/-- Whatever the standard library, the daemon and the config, `CreateContainer` never returns
an identifier without an error. -/
theorem CreateContainer_never_ok {σ : Type} (std : Std) (client : LibvirtplusClient σ)
    (ccf : Option ContainerConfig) (name : String) (w : World σ) (s : String) :
    (CreateContainer std client ccf name w).1 ≠ .ok s := by
  unfold CreateContainer
  cases CreateContainer_config ccf name with
  | panic m => simp
  | err e => simp
  | ok config =>
    simp only
    cases std.jsonMarshalConfig config with
    | error e => simp
    | ok data =>
      simp only
      generalize doRequest std client "POST" (CreateContainer_uri std name) (some data) none w
        = x
      rcases x with ⟨r, w1⟩
      cases r with
      | err e => simp
      | panic m => simp
      | ok d1 =>
        simp only
        cases hu : std.jsonUnmarshalNonPointer d1 "string" with
        | none => exact absurd hu (jsonUnmarshalNonPointer_ne_none std d1 "string")
        | some e => simp

/-- C1, the code at the failing input: the config and name of `TestCreate`; the daemon answers
the POST with status 200 and the JSON encoding of the identifier `192.168.11.51_14`, and
`CreateContainer` returns the decoding error of `json.Unmarshal` on a non-pointer, not the
identifier. -/
theorem CreateContainer_testCreate_fails :
    (CreateContainer demoStd (demoClient false) (some testCreateConfig) "centos_65_3"
        world0).2.sent.map (fun r => (r.Method, r.URL, (demoDo false r ()).1))
      = [("POST", "http://192.168.11.51:2376/containers?name=centos_65_3",
          .ok { StatusCode := 200, Status := "200 OK",
                Body := readable "\"192.168.11.51_14\"" })] ∧
    (CreateContainer demoStd (demoClient false) (some testCreateConfig) "centos_65_3"
        world0).1 = .err (.foreign "json: Unmarshal(non-pointer string)") ∧
    (CreateContainer demoStd (demoClient false) (some testCreateConfig) "centos_65_3"
        world0).1 ≠ .ok "192.168.11.51_14" := by
  refine ⟨rfl, by decide, by decide⟩

/-! ## Inspection and listing -/

/-- When the decoded info carries a domain-status snapshot with status 1, `InspectContainer`
returns an info whose state is allocated with the running flag set. -/
theorem InspectContainer_status_one {σ : Type} (std : Std) (client : LibvirtplusClient σ)
    (id data : String) (w w1 : World σ) (v : VirtContainerInfo) (dom : VirtDomInfo)
    (hreq : doRequest std client "GET" ("/containers/" ++ id) none none w = (.ok data, w1))
    (hdec : std.jsonUnmarshalInfo data = .ok v) (hdom : v.DomInfo = some dom)
    (hst : dom.Status = 1) :
    ∃ info : ContainerInfo,
      InspectContainer std client id w = (.ok info, w1) ∧
      info.State = some { Running := true } ∧ info.Id = v.Id ∧ info.Name = v.Name ∧
      info.Config = v.ContainerConfig := by
  unfold InspectContainer
  simp only [hreq, hdec, hdom, hst]
  cases v.ContainerConfig with
  | none => exact ⟨_, rfl, rfl, rfl, rfl, rfl⟩
  | some c => exact ⟨_, rfl, rfl, rfl, rfl, rfl⟩

/-- When the decoded info carries a domain-status snapshot with a status other than 1,
`InspectContainer` returns an info whose state pointer is nil. -/
theorem InspectContainer_status_other {σ : Type} (std : Std) (client : LibvirtplusClient σ)
    (id data : String) (w w1 : World σ) (v : VirtContainerInfo) (dom : VirtDomInfo)
    (hreq : doRequest std client "GET" ("/containers/" ++ id) none none w = (.ok data, w1))
    (hdec : std.jsonUnmarshalInfo data = .ok v) (hdom : v.DomInfo = some dom)
    (hst : dom.Status ≠ 1) :
    ∃ info : ContainerInfo,
      InspectContainer std client id w = (.ok info, w1) ∧ info.State = none := by
  unfold InspectContainer
  simp only [hreq, hdec, hdom]
  have hb : (dom.Status == 1) = false := by simpa using hst
  simp only [hb]
  cases v.ContainerConfig with
  | none => exact ⟨_, rfl, rfl⟩
  | some c => exact ⟨_, rfl, rfl⟩

/-- When the decoded info carries no domain-status snapshot, `InspectContainer` panics. -/
theorem InspectContainer_no_snapshot {σ : Type} (std : Std) (client : LibvirtplusClient σ)
    (id data : String) (w w1 : World σ) (v : VirtContainerInfo)
    (hreq : doRequest std client "GET" ("/containers/" ++ id) none none w = (.ok data, w1))
    (hdec : std.jsonUnmarshalInfo data = .ok v) (hdom : v.DomInfo = none) :
    InspectContainer std client id w = (.panic nilDereference, w1) := by
  unfold InspectContainer
  simp only [hreq, hdec, hdom]

/-- One turn of the loop of `ListContainers` on an inspection that succeeds with an allocated
state: the mapped entry is appended and the loop goes on. -/
theorem ListContainers_loop_cons_state {σ : Type} (std : Std) (client : LibvirtplusClient σ)
    (id : String) (ids : List String) (ret : List Container) (w w1 : World σ)
    (info : ContainerInfo) (st : State)
    (hins : InspectContainer std client id w = (.ok info, w1)) (hst : info.State = some st) :
    ListContainers_loop std client (id :: ids) ret w =
      ListContainers_loop std client ids
        (ret ++ [{ Id := info.Id, Names := [info.Name], Image := info.Image,
                   Status := if st.Running = true then "Running" else "Not Running" }]) w1 := by
  rw [ListContainers_loop]
  simp only [hins, hst]
  cases hr : st.Running <;> simp

/-- One turn of the loop of `ListContainers` on an inspection that fails: the identifier is
skipped. -/
theorem ListContainers_loop_cons_err {σ : Type} (std : Std) (client : LibvirtplusClient σ)
    (id : String) (ids : List String) (ret : List Container) (w w1 : World σ) (e : GoError)
    (hins : InspectContainer std client id w = (.err e, w1)) :
    ListContainers_loop std client (id :: ids) ret w =
      ListContainers_loop std client ids ret w1 := by
  rw [ListContainers_loop]
  simp only [hins]

/-- One turn of the loop of `ListContainers` on an inspection that succeeds with a nil state:
the read of the running flag panics. -/
theorem ListContainers_loop_cons_nil_state {σ : Type} (std : Std)
    (client : LibvirtplusClient σ) (id : String) (ids : List String) (ret : List Container)
    (w w1 : World σ) (info : ContainerInfo)
    (hins : InspectContainer std client id w = (.ok info, w1)) (hst : info.State = none) :
    ListContainers_loop std client (id :: ids) ret w = (.panic nilDereference, w1) := by
  rw [ListContainers_loop]
  simp only [hins, hst]

/-- C2, the code at the failing input: the inspect body of `d` decodes to an info without a
domain-status snapshot, and `InspectContainer` panics on the nil dereference instead of
returning an info that is not running; for the shut-off domain `a` (status 0) the returned
info has no state at all. -/
theorem InspectContainer_absent_snapshot_panics :
    demoStd.jsonUnmarshalInfo bodyD
      = .ok { Id := "d", Name := "vm-d", CpuInfo := none, DomInfo := none,
              ContainerConfig := none } ∧
    (InspectContainer demoStd (demoClient false) "d" world0).1 = .panic nilDereference ∧
    (InspectContainer demoStd (demoClient false) "a" world0).1
      = .ok { Id := "a", Name := "vm-a", Config := none, State := none, Image := "" } := by
  refine ⟨rfl, by decide, by decide⟩

/-- C3, the code at the failing input: the inspection of the shut-off domain `a` succeeds with
a nil state, and the loop of `ListContainers` over the single identifier `a` panics when it
reads the running flag, instead of adding an entry with status "Not Running". -/
theorem ListContainers_loop_not_running_panics :
    (InspectContainer demoStd (demoClient false) "a" world0).1
      = .ok { Id := "a", Name := "vm-a", Config := none, State := none, Image := "" } ∧
    (ListContainers_loop demoStd (demoClient false) ["a"] [] world0).1
      = .panic nilDereference ∧
    (ListContainers_loop demoStd (demoClient false) ["a"] [] world0).1
      ≠ .ok [{ Id := "a", Names := ["vm-a"], Image := "", Status := "Not Running" }] := by
  refine ⟨by decide, by decide, by decide⟩

/-- C4, the code at the failing input: the daemon lists `a`, `b`, `c`; inspecting `b` fails,
`a` is shut off and `c` runs. `ListContainers` panics instead of returning the entries of `a`
and `c`. -/
theorem ListContainers_shut_off_panics :
    demoStd.jsonUnmarshalIds bodyIds = .ok ["a", "b", "c"] ∧
    (InspectContainer demoStd (demoClient false) "b" world0).1 = .err .ErrNotFound ∧
    (ListContainers demoStd (demoClient false) world0).1 = .panic nilDereference ∧
    (ListContainers demoStd (demoClient false) world0).1
      ≠ .ok [{ Id := "a", Names := ["vm-a"], Image := "", Status := "Not Running" },
             { Id := "c", Names := ["vm-c"], Image := "/img/c.qcow2", Status := "Running" }] := by
  refine ⟨rfl, by decide, by decide, by decide⟩

/-- The listing example of the specification when both surviving domains run: `b` is skipped
and the entries of `a` and `c` are returned in that order. -/
theorem ListContainers_running_example :
    (ListContainers demoStd (demoClient true) world0).1 =
      .ok [{ Id := "a", Names := ["vm-a"], Image := "", Status := "Running" },
           { Id := "c", Names := ["vm-c"], Image := "/img/c.qcow2", Status := "Running" }] := by
  decide

end Libvirtplus
